import Mathlib

/-!
Verification development for the google-cli authentication and
credential-management subsystem: a shallow embedding of the profile
registry (src/lib/config.ts), the secret-storage backends
(src/lib/storage.ts), the credential manager / OAuth flow controller
(src/lib/auth.ts), the auth CLI command (src/commands/auth.ts) and the
per-profile API-client caches (src/lib/gmail-client.ts,
src/lib/calendar-client.ts), together with theorems about the claims of
the specification.
-/

namespace GoogleCli

/-- JavaScript falsiness restricted to nullable strings: a value of type
string-or-null is falsy exactly when it is null/undefined or the empty
string.  Used wherever the source tests a nullable string with bang or
double-bang. -/
def jsFalsy : Option String → Bool
  | none => true
  | some s => s = ""

/-- JavaScript logical-or on nullable strings: returns the right operand
when the left is falsy, the left operand otherwise. -/
def jsOr (a b : Option String) : Option String :=
  if jsFalsy a then b else a

/-- Token set as persisted by the tool (interface Tokens in
src/lib/auth.ts): an access token, an optional refresh token and an
optional expiry timestamp. -/
structure Tokens where
  access_token : String
  refresh_token : Option String
  expiry_date : Option Nat
deriving DecidableEq, Repr

/-! Serialization of a token set to a string.  The source uses the
JavaScript builtins JSON.stringify / JSON.parse, which are external to
the repository; they are modelled by an executable injective codec with
a proved decode-encode roundtrip, which is the only property of the
JSON layer the source relies on (a string that fails to parse decodes
to none, matching the catch-return-null in getTokens). -/

/-- Encode one raw field as a length-tagged character run: the field
length in unary, a colon, then the field characters. -/
def encField (l : List Char) : List Char :=
  List.replicate l.length 'L' ++ ':' :: l

/-- Decode one length-tagged field, returning the field and the rest of
the input. -/
def decFieldAux : Nat → List Char → Option (List Char × List Char)
  | n, 'L' :: rest => decFieldAux (n + 1) rest
  | n, ':' :: rest => some (rest.take n, rest.drop n)
  | _, _ => none

/-- Encode an optional field. -/
def encOptField : Option (List Char) → List Char
  | none => ['N']
  | some l => 'S' :: encField l

/-- Decode an optional field. -/
def decOptField : List Char → Option (Option (List Char) × List Char)
  | 'N' :: rest => some (none, rest)
  | 'S' :: rest =>
    match decFieldAux 0 rest with
    | some (f, r) => some (some f, r)
    | none => none
  | _ => none

/-- Encode an optional natural number (in unary, as a field of u's). -/
def encOptNat : Option Nat → List Char
  | none => ['N']
  | some n => 'S' :: encField (List.replicate n 'u')

/-- Decode an optional natural number. -/
def decOptNat : List Char → Option (Option Nat × List Char)
  | 'N' :: rest => some (none, rest)
  | 'S' :: rest =>
    match decFieldAux 0 rest with
    | some (f, r) => some (some f.length, r)
    | none => none
  | _ => none

/-- Serialize a token set (the model of JSON.stringify on a Tokens
value). -/
def encodeTokens (t : Tokens) : String :=
  ⟨encField t.access_token.data ++
    encOptField (t.refresh_token.map String.data) ++
    encOptNat t.expiry_date⟩

/-- Parse a stored token string (the model of JSON.parse followed by
use as a Tokens value); unparseable input yields none. -/
def decodeTokens (s : String) : Option Tokens :=
  match decFieldAux 0 s.data with
  | none => none
  | some (a, r1) =>
    match decOptField r1 with
    | none => none
    | some (ro, r2) =>
      match decOptNat r2 with
      | none => none
      | some (eo, r3) =>
        if r3 = [] then some ⟨⟨a⟩, ro.map (fun l => (⟨l⟩ : String)), eo⟩ else none

/-! Profile registry, from src/lib/config.ts.  The registry record
(active profile plus per-profile metadata) is persisted as one JSON
file; every operation loads it, mutates it and saves it back, so the
registry is modelled as an explicit record threaded through the
operations.  Operations that throw a GoogleCliError are modelled with
Except. -/

/-- Per-profile cached metadata (interface ProfileConfig). -/
structure ProfileConfig where
  email : Option String
deriving DecidableEq, Repr

/-- The registry record (interface Config): active profile name plus a
name-to-metadata mapping, modelled as an insertion-ordered association
list like a JavaScript object. -/
structure Config where
  activeProfile : String
  profiles : List (String × ProfileConfig)
deriving DecidableEq, Repr

/-- Errors thrown by the registry operations. -/
inductive RegistryError where
  | invalidName (name : String)
  | notFound (name : String)
  | activeProtected (name : String)
deriving DecidableEq, Repr

/-- Assignment to a JavaScript object key: replaces the value in place
if the key exists, appends otherwise. -/
def psSet (l : List (String × ProfileConfig)) (k : String) (v : ProfileConfig) :
    List (String × ProfileConfig) :=
  match l with
  | [] => [(k, v)]
  | (k', v') :: rest => if k' = k then (k, v) :: rest else (k', v') :: psSet rest k v

/-- Deletion of a JavaScript object key. -/
def psDelete (l : List (String × ProfileConfig)) (k : String) :
    List (String × ProfileConfig) :=
  match l with
  | [] => []
  | (k', v') :: rest => if k' = k then rest else (k', v') :: psDelete rest k

/-- Profile-name validation (PROFILE_NAME_REGEX, one or more of
letters, digits, hyphen, underscore). -/
def validName (s : String) : Bool :=
  s ≠ "" && s.data.all (fun c => c.isAlphanum || c = '_' || c = '-')

/-- The registry produced by loadConfig when no config file exists
(createDefaultConfig). -/
def freshConfig : Config := ⟨"default", []⟩

/-- Function profileExists. -/
def profileExists (c : Config) (name : String) : Bool :=
  (c.profiles.lookup name).isSome

/-- Function getActiveProfile. -/
def getActiveProfile (c : Config) : String := c.activeProfile

/-- Function listProfiles. -/
def listProfiles (c : Config) : List String := c.profiles.map Prod.fst

/-- Function addProfile: validates the name, then replaces the whole
metadata record of the profile and makes it active. -/
def addProfile (c : Config) (name : String) (email : Option String) :
    Except RegistryError Config :=
  if validName name then .ok ⟨name, psSet c.profiles name ⟨email⟩⟩
  else .error (.invalidName name)

/-- Function setActiveProfile: validates, requires the profile to
exist, then moves the active pointer. -/
def setActiveProfile (c : Config) (name : String) : Except RegistryError Config :=
  if validName name then
    if (c.profiles.lookup name).isSome then .ok ⟨name, c.profiles⟩
    else .error (.notFound name)
  else .error (.invalidName name)

/-- Function removeProfile: validates, then checks existence (NotFound)
before the active-profile check (the source tests the profiles map
first). -/
def removeProfile (c : Config) (name : String) : Except RegistryError Config :=
  if validName name then
    if (c.profiles.lookup name).isSome then
      if c.activeProfile = name then .error (.activeProtected name)
      else .ok ⟨c.activeProfile, psDelete c.profiles name⟩
    else .error (.notFound name)
  else .error (.invalidName name)

/-- Function getProfileEmail. -/
def getProfileEmail (c : Config) (name : String) : Option String :=
  (c.profiles.lookup name).bind (fun pc => pc.email)

/-- Function setProfileEmail: performs no name validation, creates the
profile record if missing, sets the email, and leaves the active
pointer untouched. -/
def setProfileEmail (c : Config) (name : String) (email : String) : Config :=
  ⟨c.activeProfile, psSet c.profiles name ⟨some email⟩⟩

/-- Registry states reachable from a fresh registry through the
exported mutating operations (successful runs; a thrown error does not
save the config). -/
inductive Reachable : Config → Prop where
  | fresh : Reachable freshConfig
  | add {c c' : Config} {n : String} {e : Option String} :
      Reachable c → addProfile c n e = .ok c' → Reachable c'
  | setActive {c c' : Config} {n : String} :
      Reachable c → setActiveProfile c n = .ok c' → Reachable c'
  | remove {c c' : Config} {n : String} :
      Reachable c → removeProfile c n = .ok c' → Reachable c'
  | setEmail {c : Config} (n e : String) :
      Reachable c → Reachable (setProfileEmail c n e)

/-! Secret storage, from src/lib/storage.ts.  The OS keyring (under
the fixed service name google-cli) is modelled as a map from entry key
to secret value; the KeyringBackend stores a (profile, key) pair under
the entry key profileKey profile key, while the legacy unscoped
entries live at the bare key name. -/

/-- State of the OS keyring under the fixed service namespace. -/
abbrev Keyring := String → Option String

/-- Write one keyring entry (Entry.setPassword). -/
def kset (st : Keyring) (k v : String) : Keyring :=
  fun q => if q = k then some v else st q

/-- Remove one keyring entry. -/
def kdel (st : Keyring) (k : String) : Keyring :=
  fun q => if q = k then none else st q

/-- Entry key for a profile-scoped secret (KeyringBackend.profileKey). -/
def profileKey (p k : String) : String := "profile:" ++ p ++ ":" ++ k

/-- Entry.deletePassword of the external keyring library: removes the
credential and reports success when it exists, and raises a NoEntry
error when it does not (keyring-rs semantics); the repository's
withEntry wrapper catches any raised error and returns the fallback
false, so the observable outcome on an absent entry is failure with the
keyring unchanged. -/
def entryDeletePassword (st : Keyring) (k : String) : Bool × Keyring :=
  match st k with
  | some _ => (true, kdel st k)
  | none => (false, st)

/-- KeyringBackend.get. -/
def keyringGet (st : Keyring) (p k : String) : Option String :=
  st (profileKey p k)

/-- KeyringBackend.set. -/
def keyringSet (st : Keyring) (p k v : String) : Bool × Keyring :=
  (true, kset st (profileKey p k) v)

/-- KeyringBackend.delete (delete of a profile-scoped entry through
withEntry, with fallback false). -/
def keyringDelete (st : Keyring) (p k : String) : Bool × Keyring :=
  entryDeletePassword st (profileKey p k)

/-- KeyringBackend.getOldKey: read of a legacy unscoped entry. -/
def keyringGetOldKey (st : Keyring) (k : String) : Option String :=
  st k

/-- One per-profile credential file of the FileBackend, in parsed form
(interface FileCredentials); the JSON text layer is elided: a file that
exists but fails to parse behaves exactly like a missing file in
readProfile, so both are modelled as none in the FileStore. -/
structure FileCredentials where
  version : Nat
  profile : String
  client_id : Option String
  client_secret : Option String
  tokens : Option Tokens
deriving DecidableEq, Repr

/-- The credentials directory of the FileBackend: profile name to
parsed file content. -/
abbrev FileStore := String → Option FileCredentials

/-- FileBackend.delete: a missing file is success without a write;
otherwise the field is removed and the record rewritten atomically
(writeProfile modelled as succeeding); an unknown key reports
failure. -/
def fileDelete (st : FileStore) (p k : String) : Bool × FileStore :=
  match st p with
  | none => (true, st)
  | some d =>
    if k = "client_id" then
      (true, fun q => if q = p then some { d with client_id := none } else st q)
    else if k = "client_secret" then
      (true, fun q => if q = p then some { d with client_secret := none } else st q)
    else if k = "tokens" then
      (true, fun q => if q = p then some { d with tokens := none } else st q)
    else (false, st)

/-! Credential manager and OAuth flow, from src/lib/auth.ts.  The
storage backend is the default KeyringBackend (process started without
GOOGLE_CLI_STORAGE=file), so the process state visible to auth.ts is
the keyring plus the profile registry.  All asynchronous operations
run one logical flow at a time (single-process cooperative model), so
they are modelled as state-passing functions; the concurrent writes of
Promise.all in the migration touch pairwise distinct entry keys, so
their sequentialization below is the unique outcome. -/

/-- OAuth2 client credentials (interface ClientCredentials). -/
structure ClientCredentials where
  client_id : String
  client_secret : String
deriving DecidableEq, Repr

/-- Process state seen by the credential manager: the OS keyring and
the profile registry record. -/
structure AuthState where
  keyring : Keyring
  config : Config

/-- One migration write of migrateOldCredentials: if the legacy value
is present and truthy it is copied to the scoped key of the default
profile and the old entry is deleted. -/
def migrateStep (s : AuthState) (k : String) (v : Option String) : AuthState :=
  match v with
  | none => s
  | some value =>
    if value = "" then s
    else { s with keyring := kdel (kset s.keyring (profileKey "default" k) value) k }

/-- Function migrateOldCredentials: reads the three legacy unscoped
keys; when none is present it is a no-op; otherwise it copies each
present value under the default profile, deletes the old entries, and
registers the default profile if missing. -/
def migrateOldCredentials (s : AuthState) : Bool × AuthState :=
  let oldCid := keyringGetOldKey s.keyring "client_id"
  let oldCsec := keyringGetOldKey s.keyring "client_secret"
  let oldTok := keyringGetOldKey s.keyring "tokens"
  if oldCid.isNone && oldCsec.isNone && oldTok.isNone then (false, s)
  else
    let s1 := migrateStep s "client_id" oldCid
    let s2 := migrateStep s1 "client_secret" oldCsec
    let s3 := migrateStep s2 "tokens" oldTok
    let s4 :=
      if profileExists s3.config "default" then s3
      else
        match addProfile s3.config "default" none with
        | .ok c' => { s3 with config := c' }
        | .error _ => s3
    (true, s4)

/-- Function getClientCredentials of src/lib/auth.ts: resolves the
profile (active when omitted), validates the name, runs the migration,
and reads both scoped keys; a missing or empty value on either key
yields null.  It never consults environment variables. -/
def getClientCredentialsA (s : AuthState) (profile : Option String) :
    Except RegistryError (Option ClientCredentials × AuthState) :=
  let p := profile.getD s.config.activeProfile
  if validName p then
    let s1 := (migrateOldCredentials s).2
    let res :=
      match keyringGet s1.keyring p "client_id", keyringGet s1.keyring p "client_secret" with
      | some i, some c => if i = "" ∨ c = "" then none else some ⟨i, c⟩
      | _, _ => none
    .ok (res, s1)
  else .error (.invalidName p)

/-- Function setClientCredentials. -/
def setClientCredentialsA (s : AuthState) (cid csec : String) (profile : Option String) :
    Except RegistryError AuthState :=
  let p := profile.getD s.config.activeProfile
  if validName p then
    .ok { s with
      keyring := kset (kset s.keyring (profileKey p "client_id") cid)
        (profileKey p "client_secret") csec }
  else .error (.invalidName p)

/-- Function getTokens: resolves and validates the profile, runs the
migration, reads the scoped tokens entry, and parses it; a falsy or
unparseable stored value yields null. -/
def getTokensA (s : AuthState) (profile : Option String) :
    Except RegistryError (Option Tokens × AuthState) :=
  let p := profile.getD s.config.activeProfile
  if validName p then
    let s1 := (migrateOldCredentials s).2
    match keyringGet s1.keyring p "tokens" with
    | none => .ok (none, s1)
    | some j => .ok (if j = "" then none else decodeTokens j, s1)
  else .error (.invalidName p)

/-- Function setTokens. -/
def setTokensA (s : AuthState) (t : Tokens) (profile : Option String) :
    Except RegistryError AuthState :=
  let p := profile.getD s.config.activeProfile
  if validName p then
    .ok { s with keyring := kset s.keyring (profileKey p "tokens") (encodeTokens t) }
  else .error (.invalidName p)

/-- Token set carried by a tokens event of the google OAuth2 client
(googleapis Credentials: every field may be absent). -/
structure NewTokens where
  access_token : Option String
  refresh_token : Option String
  expiry_date : Option Nat
deriving DecidableEq, Repr

/-- The rotation hook registered by getAuthenticatedClient on the
tokens event for the resolved profile p: if the event carries a truthy
access token (the source guards with JS truthiness, so a missing or
empty access token does nothing), the stored tokens are re-read and
the event is merged with them, a missing refresh token or expiry
falling back to the stored one, and the merged set is persisted;
otherwise nothing happens.  An error raised inside the listener aborts
it without a write. -/
def onTokensEvent (s : AuthState) (p : String) (nt : NewTokens) : AuthState :=
  match nt.access_token with
  | none => s
  | some a =>
    if a = "" then s
    else
      match getTokensA s (some p) with
      | .error _ => s
      | .ok (existing, s1) =>
        let merged : Tokens :=
          ⟨a, nt.refresh_token.orElse (fun _ => existing.bind (fun e => e.refresh_token)),
            nt.expiry_date.orElse (fun _ => existing.bind (fun e => e.expiry_date))⟩
        match setTokensA s1 merged (some p) with
        | .error _ => s1
        | .ok s2 => s2

/-- Errors thrown by getAuthenticatedClient. -/
inductive AuthError where
  | invalidName (p : String)
  | notAuthenticated (p : String)
  | noTokens (p : String)
deriving DecidableEq, Repr

/-- The request-signing OAuth2 client constructed by
getAuthenticatedClient: the application identity plus the token set it
was seeded with via setCredentials. -/
structure OAuth2Client where
  client_id : String
  client_secret : String
  credentials : Tokens
deriving DecidableEq, Repr

/-- Function getAuthenticatedClient: resolves the profile, reads client
credentials and tokens (each miss raising a typed not-authenticated
error naming the profile), and constructs a fresh client seeded with
the stored tokens.  The function keeps no cache: every call performs
these reads anew. -/
def getAuthenticatedClientA (s : AuthState) (profile : Option String) :
    Except AuthError (OAuth2Client × AuthState) :=
  let p := profile.getD s.config.activeProfile
  match getClientCredentialsA s (some p) with
  | .error _ => .error (.invalidName p)
  | .ok (none, _) => .error (.notAuthenticated p)
  | .ok (some creds, s1) =>
    match getTokensA s1 (some p) with
    | .error _ => .error (.invalidName p)
    | .ok (none, _) => .error (.noTokens p)
    | .ok (some t, s2) => .ok (⟨creds.client_id, creds.client_secret, t⟩, s2)

/-! The local redirect listener of startAuthFlow.  An inbound HTTP
request is modelled by its url (as tested by the startsWith guard) and
its already-extracted query parameters (the URL/searchParams builtins
are external; a parameter is none when absent).  The per-flow CSRF
token is the module-level variable authStateToken, set once at flow
start; the request handler reads it but contains no assignment to it. -/

/-- The String.startsWith test of the runtime, modelled as the
character-level prefix test. -/
def strStartsWith (s pre : String) : Bool := pre.data.isPrefixOf s.data

/-- An inbound request to the redirect listener. -/
structure CallbackRequest where
  url : String
  code : Option String
  state : Option String
  error : Option String
deriving DecidableEq, Repr

/-- The decision the request handler takes on one request, in source
order: a non-callback path is answered not-found without touching flow
state; then an error parameter rejects the flow with the provider
error; then a state mismatch rejects with the CSRF message; then a
missing code rejects; otherwise the code is passed to
oauth2Client.getToken (the token-endpoint exchange). -/
inductive CallbackAction where
  | notFound
  | failOAuth (e : String)
  | failCsrf
  | failNoCode
  | exchangeCode (code : String)
deriving DecidableEq, Repr

/-- Handler branches after the error-parameter check. -/
def handleAfterError (tok : Option String) (req : CallbackRequest) : CallbackAction :=
  if req.state ≠ tok then .failCsrf
  else
    match req.code with
    | none => .failNoCode
    | some c => if c = "" then .failNoCode else .exchangeCode c

/-- The request handler of startAuthFlow, as a function of the current
authStateToken and the request. -/
def handleCallback (tok : Option String) (req : CallbackRequest) : CallbackAction :=
  if ¬ strStartsWith req.url "/callback" then .notFound
  else
    match req.error with
    | some e => if e = "" then handleAfterError tok req else .failOAuth e
    | none => handleAfterError tok req

/-- One handler invocation together with the value of the module-level
authStateToken after it: the handler body never assigns to
authStateToken (the only assignment in the source is at flow start),
so the token survives every request unchanged. -/
def handleCallbackStep (tok : Option String) (req : CallbackRequest) :
    CallbackAction × Option String :=
  (handleCallback tok req, tok)

/-! Export and import, from src/lib/auth.ts and the auth import command
of src/commands/auth.ts.  The command parses the input JSON into an
ExportData value before any check; the claims are stated from that
parsed bundle on. -/

/-- An export bundle (interface ExportData); the version is a plain
number here because an imported JSON document can carry any value. -/
structure ExportData where
  version : Nat
  profile : String
  email : Option String
  client_id : String
  client_secret : String
  tokens : Tokens
deriving DecidableEq, Repr

/-- Function importProfile of src/lib/auth.ts: resolves the target
name, validates it, writes client credentials and tokens, and
registers/activates the profile.  It performs no version check and no
pre-existence check. -/
def importProfileA (d : ExportData) (target : Option String) (s : AuthState) :
    Except RegistryError AuthState := do
  let p := target.getD d.profile
  if validName p then
    let s1 ← setClientCredentialsA s d.client_id d.client_secret (some p)
    let s2 ← setTokensA s1 d.tokens (some p)
    let c' ← addProfile s2.config p d.email
    pure { s2 with config := c' }
  else .error (.invalidName p)

/-- Errors of the auth import command. -/
inductive CliError where
  | unsupportedVersion (v : Nat)
  | alreadyExists (p : String)
  | registry (e : RegistryError)
deriving DecidableEq, Repr

/-- The action of the auth import command (src/commands/auth.ts),
after JSON parsing: version validation, target resolution, the
pre-existence check gated by the force flag, then importProfile. -/
def authImportAction (d : ExportData) (force : Bool) (optProfile : Option String)
    (s : AuthState) : Except CliError AuthState :=
  if d.version ≠ 1 then .error (.unsupportedVersion d.version)
  else
    let target := optProfile.getD d.profile
    if profileExists s.config target && !force then .error (.alreadyExists target)
    else
      match importProfileA d (some target) s with
      | .ok s' => .ok s'
      | .error e => .error (.registry e)

/-! Environment fallback.  The multi-profile getClientCredentials of
src/lib/auth.ts reads only the secret store; the process environment
(ambient in JavaScript, passed explicitly here) is never consulted.
The legacy single-profile revision of the module read the environment
as a fallback for every lookup, with no profile or cached-email
condition. -/

/-- The environment variables consulted by the legacy credential code. -/
structure Env where
  GOOGLE_CLIENT_ID : Option String
  GMAIL_CLIENT_ID : Option String
  GOOGLE_CLIENT_SECRET : Option String
  GMAIL_CLIENT_SECRET : Option String
  GOOGLE_TOKENS : Option String
  GMAIL_TOKENS : Option String
deriving DecidableEq, Repr

/-- Function getClientCredentials with the ambient process environment
made explicit: the body of the source function contains no reference
to process.env, so the parameter is unused. -/
def getClientCredentialsWithEnv (env : Env) (s : AuthState) (profile : Option String) :
    Except RegistryError (Option ClientCredentials × AuthState) :=
  getClientCredentialsA s profile

/-- Function getClientCredentials of the legacy single-profile
revision: keyring value, then GOOGLE then GMAIL environment variable,
under JavaScript or-semantics (an empty string falls through); null
when either resolved value is falsy. -/
def legacyGetClientCredentials (env : Env) (kr : Keyring) : Option ClientCredentials :=
  let clientId := jsOr (jsOr (kr "client_id") env.GOOGLE_CLIENT_ID) env.GMAIL_CLIENT_ID
  let clientSecret :=
    jsOr (jsOr (kr "client_secret") env.GOOGLE_CLIENT_SECRET) env.GMAIL_CLIENT_SECRET
  match clientId, clientSecret with
  | some i, some c => if i = "" ∨ c = "" then none else some ⟨i, c⟩
  | _, _ => none

/-! Per-profile API-client caches, from src/lib/gmail-client.ts and
src/lib/calendar-client.ts: a module-level Map from resolved profile
name to a lazily-authenticating wrapper object, so one wrapper (and
hence at most one authenticated-client construction) exists per
profile name. -/

/-- A GmailClient wrapper object as cached by getGmailClient; the
wrapper remembers the profile it was constructed for. -/
structure GmailClientHandle where
  profile : Option String
deriving DecidableEq, Repr

/-- Function getGmailClient: resolves the profile name, returns the
cached wrapper if one exists, otherwise constructs and caches one. -/
def getGmailClient (cache : List (String × GmailClientHandle)) (active : String)
    (profile : Option String) : GmailClientHandle × List (String × GmailClientHandle) :=
  let p := profile.getD active
  match cache.lookup p with
  | some c => (c, cache)
  | none => (⟨some p⟩, cache ++ [(p, ⟨some p⟩)])

/-- Well-formedness of the registry record as a JavaScript object: the
profile keys are pairwise distinct. -/
def wfProfiles (c : Config) : Prop := (c.profiles.map Prod.fst).Nodup

instance (c : Config) : Decidable (wfProfiles c) := by
  unfold wfProfiles; infer_instance

/-- The registry invariant of the claim: once any profile exists, the
active pointer names an existing profile. -/
def RegistryInv (c : Config) : Prop :=
  c.profiles ≠ [] → profileExists c c.activeProfile = true

instance (c : Config) : Decidable (RegistryInv c) := by
  unfold RegistryInv; infer_instance

/-! Concrete example states used by witnesses and counterexamples. -/

/-- Registry with the default profile registered and active. -/
def cfgDefault : Config := ⟨"default", [("default", ⟨none⟩)]⟩

/-- An example stored token set with a refresh token. -/
def tokA : Tokens := ⟨"a1", some "r1", none⟩

/-- A second example token set, differing in the access token. -/
def tokB : Tokens := ⟨"a2", some "r1", none⟩

/-- An older stored token set, used to exhibit the migration clash. -/
def tokOld : Tokens := ⟨"a0", some "r0", none⟩

/-- Keyring holding client credentials and tokens for the default
profile and no legacy unscoped entries. -/
def krAuth : Keyring :=
  kset (kset (kset (fun _ => none) (profileKey "default" "client_id") "id")
    (profileKey "default" "client_secret") "sec")
    (profileKey "default" "tokens") (encodeTokens tokA)

/-- Keyring holding tokens for the default profile while a legacy
unscoped tokens entry with unparseable content is still pending
migration. -/
def krLegacyClash : Keyring :=
  kset (kset (fun _ => none) (profileKey "default" "tokens") (encodeTokens tokOld))
    "tokens" "garbage"

/-! Theorems. -/

theorem decFieldAux_replicate (m : Nat) :
    ∀ (n : Nat) (rest : List Char),
      decFieldAux n (List.replicate m 'L' ++ ':' :: rest) =
        some (rest.take (n + m), rest.drop (n + m)) := by
  induction m with
  | zero => intro n rest; simp [decFieldAux]
  | succ m ih =>
    intro n rest
    rw [List.replicate_succ, List.cons_append]
    show decFieldAux (n + 1) (List.replicate m 'L' ++ ':' :: rest) = _
    rw [ih (n + 1)]
    have h : n + 1 + m = n + (m + 1) := by omega
    rw [h]

theorem decFieldAux_encField (l rest : List Char) :
    decFieldAux 0 (encField l ++ rest) = some (l, rest) := by
  unfold encField
  rw [List.append_assoc, List.cons_append, decFieldAux_replicate]
  simp [List.take_left, List.drop_left]

theorem mk_data (l : List Char) : (⟨l⟩ : String).data = l := rfl

theorem decOptField_enc (o : Option (List Char)) (rest : List Char) :
    decOptField (encOptField o ++ rest) = some (o, rest) := by
  cases o with
  | none => rfl
  | some l => simp [encOptField, decOptField, List.cons_append, decFieldAux_encField]

theorem decOptNat_enc (o : Option Nat) (rest : List Char) :
    decOptNat (encOptNat o ++ rest) = some (o, rest) := by
  cases o with
  | none => rfl
  | some n => simp [encOptNat, decOptNat, List.cons_append, decFieldAux_encField]

theorem decode_encode (t : Tokens) : decodeTokens (encodeTokens t) = some t := by
  obtain ⟨a, ro, eo⟩ := t
  have hnil : encOptNat eo = encOptNat eo ++ [] := by simp
  simp only [encodeTokens, decodeTokens, mk_data, List.append_assoc, decFieldAux_encField,
    decOptField_enc]
  rw [hnil, decOptNat_enc]
  cases ro <;> simp

theorem encodeTokens_ne_empty (t : Tokens) : encodeTokens t ≠ "" := by
  intro h
  have hd : (encodeTokens t).data = ("" : String).data := by rw [h]
  obtain ⟨a, ro, eo⟩ := t
  have : (encField a.data ++
      (encOptField (ro.map String.data) ++ encOptNat eo) : List Char) = [] := by
    rw [← List.append_assoc]
    exact hd
  rcases List.append_eq_nil.mp this with ⟨h1, _⟩
  unfold encField at h1
  rcases List.append_eq_nil.mp h1 with ⟨_, h3⟩
  exact List.cons_ne_nil _ _ h3

theorem str_data_append (s t : String) : (s ++ t).data = s.data ++ t.data := by
  cases s; cases t; rfl

theorem str_eq_of_data_eq {s t : String} (h : s.data = t.data) : s = t := by
  cases s; cases t; exact congrArg String.mk h

theorem lookup_cons_eq (q k' : String) (v' : ProfileConfig) (tl : List (String × ProfileConfig)) :
    List.lookup q ((k', v') :: tl) = if q = k' then some v' else List.lookup q tl := by
  by_cases h : q = k'
  · simp [List.lookup, h]
  · simp [List.lookup, h, beq_eq_false_iff_ne.mpr h]

theorem lookup_psSet_self (l : List (String × ProfileConfig)) (k : String) (v : ProfileConfig) :
    (psSet l k v).lookup k = some v := by
  induction l with
  | nil => simp [psSet, lookup_cons_eq]
  | cons hd tl ih =>
    obtain ⟨k', v'⟩ := hd
    by_cases h : k' = k
    · simp [psSet, h, lookup_cons_eq]
    · simp [psSet, h, lookup_cons_eq, Ne.symm h, ih]

theorem lookup_psSet_ne (l : List (String × ProfileConfig)) (k q : String) (v : ProfileConfig)
    (h : q ≠ k) : (psSet l k v).lookup q = l.lookup q := by
  induction l with
  | nil => simp [psSet, lookup_cons_eq, h]
  | cons hd tl ih =>
    obtain ⟨k', v'⟩ := hd
    by_cases hk : k' = k
    · subst hk
      simp [psSet, lookup_cons_eq, h]
    · simp [psSet, hk, lookup_cons_eq, ih]

theorem lookup_psDelete_ne (l : List (String × ProfileConfig)) (k q : String)
    (h : q ≠ k) : (psDelete l k).lookup q = l.lookup q := by
  induction l with
  | nil => simp [psDelete]
  | cons hd tl ih =>
    obtain ⟨k', v'⟩ := hd
    by_cases hk : k' = k
    · subst hk
      simp [psDelete, lookup_cons_eq, h]
    · simp [psDelete, hk, lookup_cons_eq, ih]

theorem pk_data (p k : String) :
    (profileKey p k).data =
      "profile:".data ++ (p.data ++ (":".data ++ k.data)) := by
  simp [profileKey, str_data_append, List.append_assoc]

theorem pk_k_inj {p k₁ k₂ : String} (h : profileKey p k₁ = profileKey p k₂) : k₁ = k₂ := by
  have hd := congrArg String.data h
  rw [pk_data, pk_data] at hd
  exact str_eq_of_data_eq
    (List.append_cancel_left (List.append_cancel_left (List.append_cancel_left hd)))

theorem pk_p_inj {p q k : String} (h : profileKey p k = profileKey q k) : p = q := by
  have hd := congrArg String.data h
  rw [pk_data, pk_data] at hd
  exact str_eq_of_data_eq (List.append_cancel_right (List.append_cancel_left hd))

theorem pk_head (p k : String) : (profileKey p k).data.head? = some 'p' := by
  rw [pk_data]
  rw [show "profile:".data = 'p' :: "rofile:".data from rfl]
  rfl

theorem pk_ne_plain (p k w : String) (hw : w.data.head? ≠ some 'p') :
    profileKey p k ≠ w := by
  intro h
  exact hw (by rw [← h]; exact pk_head p k)

theorem pk_getLast (p k : String) (hk : k.data ≠ []) :
    (profileKey p k).data.getLast? = k.data.getLast? := by
  have h1 : (":".data ++ k.data) ≠ [] := by
    rw [show (":".data) = [':'] from rfl]
    simp
  have h2 : (p.data ++ (":".data ++ k.data)) ≠ [] := by
    intro hc
    exact h1 (List.append_eq_nil.mp hc).2
  rw [pk_data, List.getLast?_append_of_ne_nil _ h2, List.getLast?_append_of_ne_nil _ h1,
    List.getLast?_append_of_ne_nil _ hk]

/-! Additional registry lemmas. -/

theorem lookup_eq_none_of_not_mem_keys (l : List (String × ProfileConfig)) {k : String}
    (h : k ∉ l.map Prod.fst) : l.lookup k = none := by
  induction l with
  | nil => rfl
  | cons hd tl ih =>
    obtain ⟨k', v'⟩ := hd
    simp only [List.map_cons, List.mem_cons] at h
    push_neg at h
    rw [lookup_cons_eq, if_neg h.1]
    exact ih h.2

theorem lookup_psDelete_self (l : List (String × ProfileConfig)) (k : String)
    (h : (l.map Prod.fst).Nodup) : (psDelete l k).lookup k = none := by
  induction l with
  | nil => rfl
  | cons hd tl ih =>
    obtain ⟨k', v'⟩ := hd
    simp only [List.map_cons, List.nodup_cons] at h
    by_cases hk : k' = k
    · subst hk
      simpa [psDelete] using lookup_eq_none_of_not_mem_keys tl h.1
    · rw [show psDelete ((k', v') :: tl) k = (k', v') :: psDelete tl k by simp [psDelete, hk],
        lookup_cons_eq, if_neg (Ne.symm hk)]
      exact ih h.2

/-- Claim C4, counterexample: the claim quantifies over every reachable
registry state, but setProfileEmail applied to the fresh registry with
a name other than the default pointer creates a profile record while
leaving the active pointer at the non-existing default, so the
reachable state after setProfileEmail "work" has one profile and an
active pointer naming no existing profile. -/
theorem c4_counterexample :
    Reachable (setProfileEmail freshConfig "work" "a@x.com") ∧
    (setProfileEmail freshConfig "work" "a@x.com").profiles ≠ [] ∧
    profileExists (setProfileEmail freshConfig "work" "a@x.com")
      (setProfileEmail freshConfig "work" "a@x.com").activeProfile = false :=
  ⟨Reachable.setEmail "work" "a@x.com" Reachable.fresh, by decide, by decide⟩

/-- Claim C4, amended: addProfile, setActiveProfile and removeProfile
preserve the invariant that the active pointer names an existing
profile once any profile exists, and setProfileEmail preserves it
whenever the registry is already non-empty; removing the currently
active profile never succeeds.  (setProfileEmail on an empty registry
can break the invariant, as the counterexample shows.) -/
theorem c4_registry_invariant_amended :
    (∀ (c : Config) (n : String) (e : Option String) (c' : Config),
      RegistryInv c → addProfile c n e = .ok c' → RegistryInv c') ∧
    (∀ (c : Config) (n : String) (c' : Config),
      RegistryInv c → setActiveProfile c n = .ok c' → RegistryInv c') ∧
    (∀ (c : Config) (n : String) (c' : Config),
      RegistryInv c → removeProfile c n = .ok c' → RegistryInv c') ∧
    (∀ (c : Config) (n e : String),
      RegistryInv c → c.profiles ≠ [] → RegistryInv (setProfileEmail c n e)) ∧
    (∀ (c c' : Config), removeProfile c c.activeProfile ≠ .ok c') := by
  refine ⟨?_, ?_, ?_, ?_, ?_⟩
  · intro c n e c' _ h
    unfold addProfile at h
    split at h
    · cases h
      intro _
      simp [profileExists, lookup_psSet_self]
    · cases h
  · intro c n c' _ h
    unfold setActiveProfile at h
    by_cases hv : validName n = true
    · rw [if_pos hv] at h
      by_cases hex : (c.profiles.lookup n).isSome = true
      · rw [if_pos hex] at h
        cases h
        intro _
        simpa [profileExists] using hex
      · rw [if_neg hex] at h
        cases h
    · rw [if_neg hv] at h
      cases h
  · intro c n c' hinv h
    unfold removeProfile at h
    by_cases hv : validName n = true
    · rw [if_pos hv] at h
      by_cases hex : (c.profiles.lookup n).isSome = true
      · rw [if_pos hex] at h
        by_cases hact : c.activeProfile = n
        · rw [if_pos hact] at h
          cases h
        · rw [if_neg hact] at h
          cases h
          intro _
          have hne : c.profiles ≠ [] := by
            intro hnil
            rw [hnil] at hex
            simp [List.lookup] at hex
          have hx := hinv hne
          simp only [profileExists] at hx ⊢
          rwa [lookup_psDelete_ne c.profiles n c.activeProfile hact]
      · rw [if_neg hex] at h
        cases h
    · rw [if_neg hv] at h
      cases h
  · intro c n e hinv hne _
    have hx := hinv hne
    simp only [profileExists, setProfileEmail] at hx ⊢
    by_cases hc : c.activeProfile = n
    · rw [hc, lookup_psSet_self]
      rfl
    · rwa [lookup_psSet_ne c.profiles n c.activeProfile ⟨some e⟩ hc]
  · intro c c' h
    unfold removeProfile at h
    by_cases hv : validName c.activeProfile = true
    · rw [if_pos hv] at h
      by_cases hex : (c.profiles.lookup c.activeProfile).isSome = true
      · rw [if_pos hex, if_pos rfl] at h
        cases h
      · rw [if_neg hex] at h
        cases h
    · rw [if_neg hv] at h
      cases h

/-- Claim C4, witness for the amended theorem: concrete instances of
each preservation statement. -/
theorem c4_registry_invariant_amended_witness :
    RegistryInv (⟨"work", [("work", ⟨none⟩)]⟩ : Config) ∧
    RegistryInv (⟨"work", [("work", ⟨none⟩), ("home", ⟨none⟩)]⟩ : Config) ∧
    RegistryInv (⟨"work", [("work", ⟨none⟩)]⟩ : Config) ∧
    RegistryInv (setProfileEmail ⟨"work", [("work", ⟨none⟩)]⟩ "work" "w@x.com") ∧
    removeProfile (⟨"default", []⟩ : Config) "default" ≠ .ok freshConfig := by
  refine ⟨?_, ?_, ?_, ?_, ?_⟩
  · exact c4_registry_invariant_amended.1 freshConfig "work" none _ (by decide) rfl
  · exact c4_registry_invariant_amended.2.1 ⟨"home", [("work", ⟨none⟩), ("home", ⟨none⟩)]⟩
      "work" _ (by decide) rfl
  · exact c4_registry_invariant_amended.2.2.1 ⟨"work", [("work", ⟨none⟩), ("old", ⟨none⟩)]⟩
      "old" _ (by decide) rfl
  · exact c4_registry_invariant_amended.2.2.2.1 ⟨"work", [("work", ⟨none⟩)]⟩ "work" "w@x.com"
      (by decide) (by decide)
  · exact c4_registry_invariant_amended.2.2.2.2 ⟨"default", []⟩ freshConfig

/-- Claim C5, counterexample: in the fresh registry the active profile
is default and no profile exists, and removing it fails with NotFound,
not ActiveProfileProtected, because the source checks the profiles map
before the active-pointer check. -/
theorem c5_counterexample :
    freshConfig.activeProfile = "default" ∧
    removeProfile freshConfig "default" = .error (.notFound "default") :=
  ⟨rfl, rfl⟩

/-- Claim C5, amended: for a valid profile name, removing the active
profile fails with ActiveProfileProtected when the profile exists and
with NotFound when it does not; removing a non-active existing profile
succeeds, and in a well-formed registry the profile no longer exists
afterwards. -/
theorem c5_remove_amended :
    ∀ (c : Config) (n : String), validName n = true →
      (n = c.activeProfile →
        removeProfile c n =
          .error (if profileExists c n then .activeProtected n else .notFound n)) ∧
      (wfProfiles c → n ≠ c.activeProfile → profileExists c n = true →
        removeProfile c n = .ok ⟨c.activeProfile, psDelete c.profiles n⟩ ∧
        profileExists ⟨c.activeProfile, psDelete c.profiles n⟩ n = false) := by
  intro c n hv
  constructor
  · intro hact
    unfold removeProfile
    rw [if_pos hv]
    by_cases hex : (c.profiles.lookup n).isSome
    · rw [if_pos hex, if_pos hact.symm]
      simp [profileExists, hex]
    · rw [if_neg hex]
      simp only [profileExists]
      rw [if_neg]
      simpa using hex
  · intro hwf hact hex
    constructor
    · unfold removeProfile
      rw [if_pos hv, if_pos (by simpa [profileExists] using hex), if_neg (fun hh => hact hh.symm)]
    · simp only [profileExists]
      rw [lookup_psDelete_self _ _ hwf]
      rfl

/-- Claim C5, witness: the amended theorem applied to a two-profile
registry, removing the non-active profile, and to the fresh registry,
removing the active one. -/
theorem c5_remove_amended_witness :
    removeProfile ⟨"work", [("work", ⟨none⟩), ("old", ⟨none⟩)]⟩ "old" =
      .ok ⟨"work", psDelete [("work", ⟨none⟩), ("old", ⟨none⟩)] "old"⟩ ∧
    removeProfile freshConfig "default" =
      .error (if profileExists freshConfig "default" then .activeProtected "default"
        else .notFound "default") :=
  ⟨((c5_remove_amended ⟨"work", [("work", ⟨none⟩), ("old", ⟨none⟩)]⟩ "old" (by decide)).2
      (by decide) (by decide) (by decide)).1,
   (c5_remove_amended freshConfig "default" (by decide)).1 (by decide)⟩

/-- Claim C10, confirmed: addProfile overwrites the whole metadata
record, so adding an existing profile without an email erases a
previously cached email — the repeated-login path of startAuthFlow
calls addProfile with the fetched email or undefined, so a failed
best-effort email fetch erases the cached address. -/
theorem c10_addProfile_replaces_email :
    ∀ (c : Config) (n : String) (e : String), validName n = true →
      getProfileEmail c n = some e →
      addProfile c n none = .ok ⟨n, psSet c.profiles n ⟨none⟩⟩ ∧
      getProfileEmail ⟨n, psSet c.profiles n ⟨none⟩⟩ n = none := by
  intro c n e hv _
  constructor
  · unfold addProfile
    rw [if_pos hv]
  · simp [getProfileEmail, lookup_psSet_self]

/-- Claim C10, witness: a profile with a cached email loses it when
addProfile runs again without one. -/
theorem c10_addProfile_replaces_email_witness :
    addProfile ⟨"work", [("work", ⟨some "a@x.com"⟩)]⟩ "work" none =
      .ok ⟨"work", psSet [("work", ⟨some "a@x.com"⟩)] "work" ⟨none⟩⟩ ∧
    getProfileEmail ⟨"work", psSet [("work", ⟨some "a@x.com"⟩)] "work" ⟨none⟩⟩ "work" = none :=
  c10_addProfile_replaces_email ⟨"work", [("work", ⟨some "a@x.com"⟩)]⟩ "work" "a@x.com"
    (by decide) (by decide)

/-- Claim C1, counterexample: a callback request whose state differs
from the issued token but which also carries an error parameter is
rejected with the provider error, not the CSRF-mismatch reason,
because the error check precedes the state check in the handler. -/
theorem c1_counterexample :
    (⟨"/callback", some "c0", some "evil", some "access_denied"⟩ : CallbackRequest).state ≠
      some "tok" ∧
    handleCallback (some "tok") ⟨"/callback", some "c0", some "evil", some "access_denied"⟩ =
      .failOAuth "access_denied" ∧
    handleCallback (some "tok") ⟨"/callback", some "c0", some "evil", some "access_denied"⟩ ≠
      .failCsrf :=
  ⟨by decide, by decide, by decide⟩

/-- Claim C1, amended: a callback request whose state differs from the
per-flow token never reaches the token exchange, and when it carries
no (truthy) error parameter it is rejected with the CSRF-mismatch
reason; a mismatched-state request with an error parameter is rejected
with the provider error instead (still without token exchange). -/
theorem c1_csrf_no_exchange :
    ∀ (tok : String) (req : CallbackRequest),
      strStartsWith req.url "/callback" = true →
      req.state ≠ some tok →
      (∀ cd, handleCallback (some tok) req ≠ .exchangeCode cd) ∧
      (jsFalsy req.error = true → handleCallback (some tok) req = .failCsrf) := by
  intro tok req hurl hstate
  have hafter : handleAfterError (some tok) req = .failCsrf := by
    unfold handleAfterError
    rw [if_pos hstate]
  constructor
  · intro cd
    unfold handleCallback
    rw [if_neg (fun hp => hp hurl)]
    cases hre : req.error with
    | none => simp [hafter]
    | some e =>
      by_cases he : e = ""
      · simp [he, hafter]
      · simp [he]
  · intro hfal
    unfold handleCallback
    rw [if_neg (fun hp => hp hurl)]
    cases hre : req.error with
    | none => exact hafter
    | some e =>
      have he : e = "" := by simpa [jsFalsy, hre] using hfal
      simp [he, hafter]

/-- Claim C1, witness for the amended theorem: a mismatched-state
request without error parameter is refused as CSRF and is not an
exchange. -/
theorem c1_csrf_no_exchange_witness :
    handleCallback (some "t") ⟨"/callback?state=x", none, some "x", none⟩ ≠
      .exchangeCode "x" ∧
    handleCallback (some "t") ⟨"/callback?state=x", none, some "x", none⟩ = .failCsrf :=
  ⟨(c1_csrf_no_exchange "t" ⟨"/callback?state=x", none, some "x", none⟩
      (by decide) (by decide)).1 "x",
   (c1_csrf_no_exchange "t" ⟨"/callback?state=x", none, some "x", none⟩
      (by decide) (by decide)).2 (by decide)⟩

/-- Claim C2: the per-flow state token is not single-use in the code.
After a first callback carrying the issued token is accepted and
consumed by the flow (reaching the token exchange), the module-level
authStateToken is left unchanged — the handler contains no assignment
to it — so a second callback carrying the same state value still
passes the state check and reaches the token exchange again.  The spec
requires the second request not to validate. -/
theorem c2_state_token_not_single_use :
    handleCallbackStep (some "t0") ⟨"/callback", some "c1", some "t0", none⟩ =
      (.exchangeCode "c1", some "t0") ∧
    handleCallback
      (handleCallbackStep (some "t0") ⟨"/callback", some "c1", some "t0", none⟩).2
      ⟨"/callback", some "c2", some "t0", none⟩ = .exchangeCode "c2" :=
  ⟨by decide, by decide⟩

/-- Claim C6, counterexample: under the OS-secret-store backend,
deleting an absent key reports failure, not success: the external
deletePassword raises NoEntry and the wrapper absorbs it into the
fallback false. -/
theorem c6_counterexample :
    ((fun _ => none : Keyring) (profileKey "default" "tokens") = none) ∧
    (keyringDelete (fun _ => none) "default" "tokens").1 = false :=
  ⟨rfl, rfl⟩

/-- Claim C6, amended: under the file backend, deleting an absent
well-known key is a no-op success (both when the profile file is
missing and when the field is absent), but under the keyring backend
deleting an absent key reports failed with the keyring unchanged. -/
theorem c6_delete_absent_amended :
    (∀ (st : Keyring) (p k : String), st (profileKey p k) = none →
      keyringDelete st p k = (false, st)) ∧
    (∀ (st : FileStore) (p k : String),
      k = "client_id" ∨ k = "client_secret" ∨ k = "tokens" →
      st p = none → fileDelete st p k = (true, st)) ∧
    (∀ (st : FileStore) (p : String) (d : FileCredentials),
      st p = some d → d.client_id = none → fileDelete st p "client_id" = (true, st)) ∧
    (∀ (st : FileStore) (p : String) (d : FileCredentials),
      st p = some d → d.client_secret = none → fileDelete st p "client_secret" = (true, st)) ∧
    (∀ (st : FileStore) (p : String) (d : FileCredentials),
      st p = some d → d.tokens = none → fileDelete st p "tokens" = (true, st)) := by
  refine ⟨?_, ?_, ?_, ?_, ?_⟩
  · intro st p k h
    unfold keyringDelete entryDeletePassword
    rw [h]
  · intro st p k _ hst
    unfold fileDelete
    rw [hst]
  · intro st p d hst hf
    unfold fileDelete
    rw [hst]
    simp only [if_pos rfl]
    refine congrArg (Prod.mk true) (funext fun q => ?_)
    by_cases hq : q = p
    · subst hq
      rw [if_pos rfl, hst]
      obtain ⟨v, pr, ci, cs, tk⟩ := d
      cases hf
      rfl
    · rw [if_neg hq]
  · intro st p d hst hf
    unfold fileDelete
    rw [hst]
    dsimp only
    rw [if_neg (by decide), if_pos rfl]
    refine congrArg (Prod.mk true) (funext fun q => ?_)
    by_cases hq : q = p
    · subst hq
      rw [if_pos rfl, hst]
      obtain ⟨v, pr, ci, cs, tk⟩ := d
      cases hf
      rfl
    · rw [if_neg hq]
  · intro st p d hst hf
    unfold fileDelete
    rw [hst]
    dsimp only
    rw [if_neg (by decide), if_neg (by decide), if_pos rfl]
    refine congrArg (Prod.mk true) (funext fun q => ?_)
    by_cases hq : q = p
    · subst hq
      rw [if_pos rfl, hst]
      obtain ⟨v, pr, ci, cs, tk⟩ := d
      cases hf
      rfl
    · rw [if_neg hq]

/-- Claim C6, witness for the amended theorem: concrete instances of
the keyring-absent case, the missing-file case and an absent-field
case. -/
theorem c6_delete_absent_amended_witness :
    keyringDelete (fun _ => none) "work" "client_id" = (false, fun _ => none) ∧
    fileDelete (fun _ => none) "work" "tokens" = (true, fun _ => none) ∧
    fileDelete (fun q => if q = "work" then some ⟨1, "work", none, some "cs", none⟩ else none)
      "work" "client_id" =
      (true, fun q => if q = "work" then some ⟨1, "work", none, some "cs", none⟩ else none) :=
  ⟨c6_delete_absent_amended.1 (fun _ => none) "work" "client_id" rfl,
   c6_delete_absent_amended.2.1 (fun _ => none) "work" "tokens" (Or.inr (Or.inr rfl)) rfl,
   c6_delete_absent_amended.2.2.1
     (fun q => if q = "work" then some ⟨1, "work", none, some "cs", none⟩ else none)
     "work" ⟨1, "work", none, some "cs", none⟩ (by decide) rfl⟩

theorem jsOr_falsy (a b : Option String) (h : jsFalsy a = true) : jsOr a b = b := by
  unfold jsOr
  rw [if_pos h]

theorem jsOr_truthy (a b : Option String) (h : jsFalsy a = false) : jsOr a b = a := by
  unfold jsOr
  rw [if_neg (by simp [h])]

/-- Claim C8, counterexample: with client id and secret supplied in the
environment, no cached email for the default profile and an empty
secret store, getClientCredentials for default returns null rather
than the environment credentials — the multi-profile code has no
environment fallback. -/
theorem c8_counterexample :
    getClientCredentialsWithEnv ⟨some "env-id", none, some "env-sec", none, none, none⟩
        ⟨fun _ => none, freshConfig⟩ (some "default") =
      .ok (none, ⟨fun _ => none, freshConfig⟩) ∧
    getProfileEmail freshConfig "default" = none :=
  ⟨rfl, rfl⟩

/-- Claim C8, amended: the multi-profile getClientCredentials never
consults the environment (its result is the same under any two
environments); the environment fallback existed only in the legacy
single-profile revision, where it applies unconditionally whenever the
keyring values are falsy, with no default-profile or cached-email
condition. -/
theorem c8_env_fallback_amended :
    (∀ (env env' : Env) (s : AuthState) (p : Option String),
      getClientCredentialsWithEnv env s p = getClientCredentialsWithEnv env' s p) ∧
    (∀ (env : Env) (kr : Keyring) (i c : String),
      env.GOOGLE_CLIENT_ID = some i → i ≠ "" →
      env.GOOGLE_CLIENT_SECRET = some c → c ≠ "" →
      jsFalsy (kr "client_id") = true → jsFalsy (kr "client_secret") = true →
      legacyGetClientCredentials env kr = some ⟨i, c⟩) := by
  constructor
  · intro env env' s p
    rfl
  · intro env kr i c hi hine hc hcne hf1 hf2
    have hfi : jsFalsy (some i) = false := by simp [jsFalsy, hine]
    have hfc : jsFalsy (some c) = false := by simp [jsFalsy, hcne]
    unfold legacyGetClientCredentials
    rw [jsOr_falsy _ _ hf1, hi, jsOr_truthy _ _ hfi, jsOr_falsy _ _ hf2, hc,
      jsOr_truthy _ _ hfc]
    dsimp only
    rw [if_neg (fun hor => hor.elim hine hcne)]

/-- Claim C8, witness for the amended theorem. -/
theorem c8_env_fallback_amended_witness :
    getClientCredentialsWithEnv ⟨some "x", none, some "y", none, none, none⟩
        ⟨fun _ => none, freshConfig⟩ (some "default") =
      getClientCredentialsWithEnv ⟨none, none, none, none, none, none⟩
        ⟨fun _ => none, freshConfig⟩ (some "default") ∧
    legacyGetClientCredentials ⟨some "env-id", none, some "env-sec", none, none, none⟩
      (fun _ => none) = some ⟨"env-id", "env-sec"⟩ :=
  ⟨c8_env_fallback_amended.1 ⟨some "x", none, some "y", none, none, none⟩
      ⟨none, none, none, none, none, none⟩ ⟨fun _ => none, freshConfig⟩ (some "default"),
   c8_env_fallback_amended.2 ⟨some "env-id", none, some "env-sec", none, none, none⟩
      (fun _ => none) "env-id" "env-sec" rfl (by decide) rfl (by decide) rfl rfl⟩

/-- Claim C9, counterexample: getAuthenticatedClient keeps no cache;
after one successful construction for the default profile, a write to
the stored tokens changes the client returned by the next call, so the
later request is not answered from a cache and re-reads the secret
store. -/
theorem c9_counterexample :
    (getAuthenticatedClientA ⟨krAuth, cfgDefault⟩ (some "default")).map Prod.fst =
      .ok ⟨"id", "sec", tokA⟩ ∧
    (getAuthenticatedClientA
        ⟨kset krAuth (profileKey "default" "tokens") (encodeTokens tokB), cfgDefault⟩
        (some "default")).map Prod.fst = .ok ⟨"id", "sec", tokB⟩ ∧
    (⟨"id", "sec", tokA⟩ : OAuth2Client) ≠ ⟨"id", "sec", tokB⟩ :=
  ⟨rfl, rfl, by decide⟩

/-- Claim C9, amended: getAuthenticatedClient itself caches nothing --
every successful call returns a client seeded from the token value
stored in the secret store at call time; the per-profile caching the
specification describes lives one level up, in the getGmailClient and
getCalendarClient wrapper caches, which return the cached wrapper
object unchanged on a hit. -/
theorem c9_client_cache_amended :
    (∀ (cache : List (String × GmailClientHandle)) (active : String)
        (p : Option String) (c : GmailClientHandle),
      cache.lookup (p.getD active) = some c →
      getGmailClient cache active p = (c, cache)) ∧
    (∀ (s : AuthState) (p : String) (c : OAuth2Client) (s' : AuthState),
      getAuthenticatedClientA s (some p) = .ok (c, s') →
      ((s'.keyring (profileKey p "tokens")).bind
        (fun j => if j = "" then none else decodeTokens j)) = some c.credentials) := by
  constructor
  · intro cache active p c h
    unfold getGmailClient
    dsimp only
    rw [h]
  · intro s p c s' h
    unfold getAuthenticatedClientA at h
    dsimp only at h
    simp only [Option.getD_some] at h
    cases hcc : getClientCredentialsA s (some p) with
    | error e => rw [hcc] at h; cases h
    | ok v =>
      obtain ⟨ocreds, s1⟩ := v
      rw [hcc] at h
      cases ocreds with
      | none => cases h
      | some creds =>
        dsimp only at h
        cases hgt : getTokensA s1 (some p) with
        | error e => rw [hgt] at h; cases h
        | ok w =>
          obtain ⟨otok, s2⟩ := w
          rw [hgt] at h
          cases otok with
          | none => cases h
          | some t =>
            cases h
            unfold getTokensA at hgt
            dsimp only at hgt
            simp only [Option.getD_some] at hgt
            by_cases hv : validName p = true
            · rw [if_pos hv] at hgt
              cases hj : keyringGet ((migrateOldCredentials s1).2).keyring p "tokens" with
              | none =>
                rw [hj] at hgt
                cases hgt
              | some j =>
                rw [hj] at hgt
                dsimp only at hgt
                by_cases hje : j = ""
                · rw [if_pos hje] at hgt
                  cases hgt
                · rw [if_neg hje] at hgt
                  injection hgt with hpair
                  have h1 := congrArg Prod.fst hpair
                  have h2 := congrArg Prod.snd hpair
                  dsimp only at h1 h2
                  unfold keyringGet at hj
                  rw [← h2, hj]
                  simp only [Option.some_bind]
                  rw [if_neg hje]
                  exact h1
            · rw [if_neg hv] at hgt
              cases hgt

/-- Claim C9, witness for the amended theorem: a cache hit returns the
cached wrapper, and a successful client construction is seeded exactly
with the stored tokens. -/
theorem c9_client_cache_amended_witness :
    getGmailClient [("default", ⟨some "default"⟩)] "default" (some "default") =
      (⟨some "default"⟩, [("default", ⟨some "default"⟩)]) ∧
    ((⟨krAuth, cfgDefault⟩ : AuthState).keyring (profileKey "default" "tokens")).bind
      (fun j => if j = "" then none else decodeTokens j) =
      some (⟨"id", "sec", tokA⟩ : OAuth2Client).credentials :=
  ⟨c9_client_cache_amended.1 [("default", ⟨some "default"⟩)] "default" (some "default")
      ⟨some "default"⟩ rfl,
   c9_client_cache_amended.2 ⟨krAuth, cfgDefault⟩ "default" ⟨"id", "sec", tokA⟩
      ⟨krAuth, cfgDefault⟩ rfl⟩

theorem bindOk {ε : Type u} {α β : Type v} (a : α) (f : α → Except ε β) :
    (Except.ok a : Except ε α) >>= f = f a := rfl

theorem pureOk {ε : Type u} {α : Type v} (a : α) : (pure a : Except ε α) = Except.ok a := rfl

theorem kset_same (st : Keyring) (k v : String) : kset st k v k = some v := by
  unfold kset
  rw [if_pos rfl]

theorem kset_other (st : Keyring) (k v q : String) (h : q ≠ k) : kset st k v q = st q := by
  unfold kset
  rw [if_neg h]

theorem pk_k_ne (p k₁ k₂ : String) (h : k₁ ≠ k₂) : profileKey p k₁ ≠ profileKey p k₂ :=
  fun hc => h (pk_k_inj hc)

theorem pk_cross_ne (p q k₁ k₂ : String) (h1 : k₁.data ≠ []) (h2 : k₂.data ≠ [])
    (h : k₁.data.getLast? ≠ k₂.data.getLast?) : profileKey p k₁ ≠ profileKey q k₂ := by
  intro he
  apply h
  rw [← pk_getLast p k₁ h1, ← pk_getLast q k₂ h2, he]

/-- Claim C7, counterexample: the library function importProfile
performs no version validation: a bundle with version 2 is imported
successfully and its client id is stored, rather than failing with
UnsupportedVersion and storing nothing (the version check lives in the
auth import command, not in importProfile). -/
theorem c7_counterexample :
    (⟨2, "work", none, "cid", "cs", ⟨"at", none, none⟩⟩ : ExportData).version ≠ 1 ∧
    (importProfileA ⟨2, "work", none, "cid", "cs", ⟨"at", none, none⟩⟩ none
        ⟨fun _ => none, freshConfig⟩).map
      (fun s' => (s'.keyring (profileKey "work" "client_id"), profileExists s'.config "work")) =
      .ok (some "cid", true) :=
  ⟨by decide, rfl⟩

/-- Claim C7, amended: the version check is performed by the auth
command for import before importProfile is invoked (importProfile
itself stores unconditionally).  Through the command: a bundle whose version
is not 1 fails with UnsupportedVersion before any write; any
successful import stores the bundle client credentials and tokens
under the resolved target name and registers and activates that
profile; and the command succeeds for a version-1 bundle with a valid
target name when the target does not already exist or force is set. -/
theorem c7_import_amended :
    (∀ (d : ExportData) (f : Bool) (op : Option String) (s : AuthState),
      d.version ≠ 1 → authImportAction d f op s = .error (.unsupportedVersion d.version)) ∧
    (∀ (d : ExportData) (f : Bool) (op : Option String) (s s' : AuthState),
      authImportAction d f op s = .ok s' →
      s'.keyring (profileKey (op.getD d.profile) "client_id") = some d.client_id ∧
      s'.keyring (profileKey (op.getD d.profile) "client_secret") = some d.client_secret ∧
      s'.keyring (profileKey (op.getD d.profile) "tokens") = some (encodeTokens d.tokens) ∧
      profileExists s'.config (op.getD d.profile) = true ∧
      s'.config.activeProfile = op.getD d.profile) ∧
    (∀ (d : ExportData) (f : Bool) (op : Option String) (s : AuthState),
      d.version = 1 → validName (op.getD d.profile) = true →
      (profileExists s.config (op.getD d.profile) = false ∨ f = true) →
      ∃ s', authImportAction d f op s = .ok s') := by
  refine ⟨?_, ?_, ?_⟩
  · intro d f op s h
    unfold authImportAction
    rw [if_pos h]
  · intro d f op s s' h
    unfold authImportAction at h
    by_cases h1 : d.version ≠ 1
    · rw [if_pos h1] at h
      cases h
    · rw [if_neg h1] at h
      dsimp only at h
      by_cases h2 : (profileExists s.config (op.getD d.profile) && !f) = true
      · rw [if_pos h2] at h
        cases h
      · rw [if_neg h2] at h
        cases him : importProfileA d (some (op.getD d.profile)) s with
        | error e =>
          rw [him] at h
          cases h
        | ok s2 =>
          rw [him] at h
          cases h
          unfold importProfileA at him
          dsimp only at him
          simp only [Option.getD_some] at him
          by_cases hvn : validName (op.getD d.profile) = true
          · rw [if_pos hvn] at him
            unfold setClientCredentialsA setTokensA addProfile at him
            dsimp only at him
            simp only [Option.getD_some] at him
            rw [if_pos hvn] at him
            simp only [bindOk] at him
            rw [if_pos hvn] at him
            simp only [bindOk] at him
            rw [if_pos hvn] at him
            simp only [bindOk, pureOk] at him
            injection him with him2
            subst him2
            dsimp only
            refine ⟨?_, ?_, ?_, ?_, rfl⟩
            · rw [kset_other _ _ _ _ (pk_k_ne _ _ _ (by decide)),
                kset_other _ _ _ _ (pk_k_ne _ _ _ (by decide)), kset_same]
            · rw [kset_other _ _ _ _ (pk_k_ne _ _ _ (by decide)), kset_same]
            · rw [kset_same]
            · simp [profileExists, lookup_psSet_self]
          · rw [if_neg hvn] at him
            cases him
  · intro d f op s h1 hvn h3
    unfold authImportAction
    rw [if_neg (fun hne => hne h1)]
    dsimp only
    have hcond : (profileExists s.config (op.getD d.profile) && !f) = false := by
      rcases h3 with h | h
      · rw [h, Bool.false_and]
      · rw [h]
        simp
    rw [if_neg (by simp [hcond])]
    unfold importProfileA
    dsimp only
    simp only [Option.getD_some]
    rw [if_pos hvn]
    unfold setClientCredentialsA setTokensA addProfile
    dsimp only
    simp only [Option.getD_some]
    rw [if_pos hvn]
    simp only [bindOk]
    rw [if_pos hvn]
    simp only [bindOk]
    rw [if_pos hvn]
    simp only [bindOk, pureOk]
    exact ⟨_, rfl⟩

/-- Claim C7, witness for the amended theorem. -/
theorem c7_import_amended_witness :
    authImportAction ⟨2, "work", none, "cid", "cs", ⟨"at", none, none⟩⟩ false none
      ⟨fun _ => none, freshConfig⟩ = .error (.unsupportedVersion 2) ∧
    (⟨kset (kset (kset (fun _ => none) (profileKey "work" "client_id") "cid")
          (profileKey "work" "client_secret") "cs")
        (profileKey "work" "tokens") (encodeTokens ⟨"at", none, none⟩),
      ⟨"work", [("work", ⟨none⟩)]⟩⟩ : AuthState).keyring (profileKey "work" "client_id") =
      some "cid" ∧
    ∃ s', authImportAction ⟨1, "work", none, "cid", "cs", ⟨"at", none, none⟩⟩ false none
      ⟨fun _ => none, freshConfig⟩ = .ok s' :=
  ⟨c7_import_amended.1 ⟨2, "work", none, "cid", "cs", ⟨"at", none, none⟩⟩ false none
      ⟨fun _ => none, freshConfig⟩ (by decide),
   (c7_import_amended.2.1 ⟨1, "work", none, "cid", "cs", ⟨"at", none, none⟩⟩ false none
      ⟨fun _ => none, freshConfig⟩
      ⟨kset (kset (kset (fun _ => none) (profileKey "work" "client_id") "cid")
          (profileKey "work" "client_secret") "cs")
        (profileKey "work" "tokens") (encodeTokens ⟨"at", none, none⟩),
        ⟨"work", [("work", ⟨none⟩)]⟩⟩ rfl).1,
   c7_import_amended.2.2 ⟨1, "work", none, "cid", "cs", ⟨"at", none, none⟩⟩ false none
      ⟨fun _ => none, freshConfig⟩ rfl (by decide) (Or.inl (by decide))⟩

theorem migrateStep_none (s : AuthState) (k : String) : migrateStep s k none = s := rfl

theorem migrateStep_keyring_other (s : AuthState) (k : String) (v : Option String) (q : String)
    (h1 : q ≠ k) (h2 : q ≠ profileKey "default" k) :
    (migrateStep s k v).keyring q = s.keyring q := by
  unfold migrateStep
  cases v with
  | none => rfl
  | some value =>
    dsimp only
    by_cases hz : value = ""
    · rw [if_pos hz]
    · rw [if_neg hz]
      dsimp only
      unfold kdel kset
      rw [if_neg h1, if_neg h2]

theorem migrate_preserves_scoped_tokens (s : AuthState) (p : String)
    (hdef : p = "default" → s.keyring "tokens" = none) :
    ((migrateOldCredentials s).2).keyring (profileKey p "tokens") =
      s.keyring (profileKey p "tokens") := by
  unfold migrateOldCredentials
  dsimp only
  by_cases hc : ((keyringGetOldKey s.keyring "client_id").isNone &&
      (keyringGetOldKey s.keyring "client_secret").isNone &&
      (keyringGetOldKey s.keyring "tokens").isNone) = true
  · rw [if_pos hc]
  · rw [if_neg hc]
    dsimp only
    have hstep4 : ∀ (s3 : AuthState),
        (if profileExists s3.config "default" then s3
          else
            match addProfile s3.config "default" none with
            | .ok c' => { s3 with config := c' }
            | .error _ => s3).keyring = s3.keyring := by
      intro s3
      by_cases hd : profileExists s3.config "default" = true
      · rw [if_pos hd]
      · rw [if_neg hd]
        cases addProfile s3.config "default" none with
        | ok c' => rfl
        | error e => rfl
    rw [hstep4]
    have hne_cid : profileKey p "tokens" ≠ "client_id" :=
      pk_ne_plain p "tokens" "client_id" (by decide)
    have hne_csec : profileKey p "tokens" ≠ "client_secret" :=
      pk_ne_plain p "tokens" "client_secret" (by decide)
    have hne_pcid : profileKey p "tokens" ≠ profileKey "default" "client_id" :=
      pk_cross_ne p "default" "tokens" "client_id" (by decide) (by decide) (by decide)
    have hne_pcsec : profileKey p "tokens" ≠ profileKey "default" "client_secret" :=
      pk_cross_ne p "default" "tokens" "client_secret" (by decide) (by decide) (by decide)
    by_cases hp : p = "default"
    · subst hp
      rw [show keyringGetOldKey s.keyring "tokens" = none from hdef rfl, migrateStep_none,
        migrateStep_keyring_other _ _ _ _ hne_csec hne_pcsec,
        migrateStep_keyring_other _ _ _ _ hne_cid hne_pcid]
    · have hne_tok : profileKey p "tokens" ≠ "tokens" :=
        pk_ne_plain p "tokens" "tokens" (by decide)
      have hne_ptok : profileKey p "tokens" ≠ profileKey "default" "tokens" :=
        fun he => hp (pk_p_inj he)
      rw [migrateStep_keyring_other _ _ _ _ hne_tok hne_ptok,
        migrateStep_keyring_other _ _ _ _ hne_csec hne_pcsec,
        migrateStep_keyring_other _ _ _ _ hne_cid hne_pcid]

/-- Claim C3, counterexample: for the default profile with a legacy
unscoped tokens entry still pending migration, the rotation hook first
triggers the migration, which overwrites the stored scoped tokens with
the legacy value; the merge then reads that value instead of the
previously stored tokens, and the previously stored refresh token r0
is dropped from the persisted result. -/
theorem c3_counterexample :
    krLegacyClash (profileKey "default" "tokens") = some (encodeTokens tokOld) ∧
    tokOld.refresh_token = some "r0" ∧
    ((onTokensEvent ⟨krLegacyClash, cfgDefault⟩ "default" ⟨some "a1", none, none⟩).keyring
        (profileKey "default" "tokens")).bind (fun j => decodeTokens j) =
      some ⟨"a1", none, none⟩ ∧
    (⟨"a1", none, none⟩ : Tokens).refresh_token ≠ some "r0" :=
  ⟨rfl, rfl, rfl, by decide⟩

/-- Claim C3, amended: for a valid profile name p — with the proviso
that for the default profile no legacy unscoped tokens entry is
pending migration — if the stored tokens for p carry a refresh token
and the rotation hook fires with a non-empty (truthy) access token but
no refresh token, the persisted tokens afterwards carry the new access
token together with the stored refresh token. -/
theorem c3_refresh_merge_amended :
    ∀ (s : AuthState) (p : String) (t : Tokens) (r a : String) (eo : Option Nat),
      validName p = true →
      a ≠ "" →
      (p = "default" → s.keyring "tokens" = none) →
      s.keyring (profileKey p "tokens") = some (encodeTokens t) →
      t.refresh_token = some r →
      (onTokensEvent s p ⟨some a, none, eo⟩).keyring (profileKey p "tokens") =
        some (encodeTokens ⟨a, some r, eo.orElse (fun _ => t.expiry_date)⟩) := by
  intro s p t r a eo hv hane hdef hstore href
  have hmig := migrate_preserves_scoped_tokens s p hdef
  have htok : getTokensA s (some p) = .ok (some t, (migrateOldCredentials s).2) := by
    unfold getTokensA
    dsimp only
    simp only [Option.getD_some]
    rw [if_pos hv]
    have hread : keyringGet ((migrateOldCredentials s).2).keyring p "tokens" =
        some (encodeTokens t) := by
      unfold keyringGet
      rw [hmig, hstore]
    rw [hread]
    dsimp only
    rw [if_neg (encodeTokens_ne_empty t), decode_encode]
  unfold onTokensEvent
  dsimp only
  rw [if_neg hane, htok]
  dsimp only
  simp only [Option.orElse, Option.some_bind, href]
  unfold setTokensA
  dsimp only
  simp only [Option.getD_some]
  rw [if_pos hv]
  dsimp only
  rw [kset_same]

/-- Claim C3, witness for the amended theorem: a rotation event with a
new non-empty access token and no refresh token, against a state with
stored tokens carrying a refresh token and no pending legacy
entries. -/
theorem c3_refresh_merge_amended_witness :
    (onTokensEvent ⟨krAuth, cfgDefault⟩ "default" ⟨some "a2", none, none⟩).keyring
      (profileKey "default" "tokens") = some (encodeTokens ⟨"a2", some "r1", none⟩) :=
  c3_refresh_merge_amended ⟨krAuth, cfgDefault⟩ "default" tokA "r1" "a2" none
    (by decide) (by decide) (fun _ => rfl) rfl rfl

end GoogleCli
